import Mathlib

/-!
Verification of the signal lifecycle engine of the nifty50 trading bot.

The development shallowly embeds the Python sources:
* `src/nifty50_signals_final.py` (resolution loop `update_pending_signals`,
  detector `intraday_check`, ledger `record_signal`, stats `compute_accuracy`);
* `src/nifty_banknifty_signals.py` (resolution loop with `resolved_at`/`result`
  columns, `compute_overall_accuracy_summary`);
* `src/nifty_banknifty_signals_rsi_v8.py` (`get_rsi_signal`, `append_signal_log`);
* `src/rsi_signal_bot_v8.py` (hand-rolled RSI and threshold rule `get_signal`);
* `src/nifty_rsi_signals_v8.py` (cycle log rewrite in `main`).

Prices, volumes and timestamps are modelled as rationals; columns that pandas
would hold as NaN are modelled as `Option` values, and comparisons against a
missing value are `false`, matching IEEE NaN comparison semantics in pandas.
-/

namespace TradingBot

/-- Candle: one OHLCV bar of the candle store.  `openTime` is the bar's open
timestamp (the dataframe index in the source). -/
structure Candle where
  openTime : ℚ
  openPrice : ℚ
  high : ℚ
  low : ℚ
  close : ℚ
  volume : ℚ
deriving Repr, DecidableEq

/-- Trade direction as stored in the `direction` column (`"BUY"` / `"SELL"`). -/
inductive Direction
  | BUY
  | SELL
deriving Repr, DecidableEq

/-- Hit outcome of the resolution scan (the `hit` local of
`update_pending_signals`): target touched or stop touched. -/
inductive Hit
  | TGT
  | SL
deriving Repr, DecidableEq

/-- Status column of a ledger row (`"PENDING"`, `"TGT"`, `"SL"`). -/
inductive Status
  | PENDING
  | TGT
  | SL
deriving Repr, DecidableEq

/-- Result column of `src/nifty_banknifty_signals.py` (`"WIN"` / `"LOSS"`). -/
inductive TradeResult
  | WIN
  | LOSS
deriving Repr, DecidableEq

/-- Decision of `update_pending_signals` on a single candle, from
`src/nifty50_signals_final.py` lines 155-168 (identically
`src/nifty_banknifty_signals.py` lines 277-286): for BUY the target test
`high >= tgt` is evaluated before the stop test `low <= sl`, mirrored for
SELL. -/
def candleHit (direction : Direction) (sl tgt : ℚ) (c : Candle) : Option Hit :=
  match direction with
  | Direction.BUY =>
      if tgt ≤ c.high then some Hit.TGT
      else if c.low ≤ sl then some Hit.SL
      else none
  | Direction.SELL =>
      if c.low ≤ tgt then some Hit.TGT
      else if sl ≤ c.high then some Hit.SL
      else none

/-- Forward scan of `update_pending_signals`: iterate the fetched candles in
dataframe order (chronological), stop at the first candle that reports a hit
(`break` in the source), otherwise no hit. -/
def scanForHit (direction : Direction) (sl tgt : ℚ) : List Candle → Option Hit
  | [] => none
  | c :: rest =>
      match candleHit direction sl tgt c with
      | some h => some h
      | none => scanForHit direction sl tgt rest

/-- Ledger row of `signal_log.csv` with the columns of
`src/nifty_banknifty_signals.py` (`ensure_csv`): timestamp, symbol, strategy,
direction, entry, SL, TGT, status, resolved_at, result. -/
structure SignalRow where
  timestamp : ℚ
  symbol : String
  strategy : String
  direction : Direction
  entry : ℚ
  sl : ℚ
  tgt : ℚ
  status : Status
  resolvedAt : Option ℚ
  result : Option TradeResult
deriving Repr, DecidableEq

/-- Resolution of one ledger row, from `src/nifty_banknifty_signals.py`
lines 259-291: rows whose status is not PENDING are left untouched; a PENDING
row is resolved by `scanForHit` over the candles fetched for its symbol and
strategy, setting status, `resolved_at` (to the current wall-clock time `now`)
and `result`; a scan with no hit leaves the row unchanged.  The signal's own
`timestamp` column is never read. -/
def updateRow (fetch : String → String → List Candle) (now : ℚ)
    (row : SignalRow) : SignalRow :=
  if row.status = Status.PENDING then
    match scanForHit row.direction row.sl row.tgt (fetch row.symbol row.strategy) with
    | some Hit.TGT =>
        { row with status := Status.TGT, resolvedAt := some now,
                   result := some TradeResult.WIN }
    | some Hit.SL =>
        { row with status := Status.SL, resolvedAt := some now,
                   result := some TradeResult.LOSS }
    | none => row
  else row

/-- The full resolution pass `update_pending_signals`: every row of the ledger
is processed by `updateRow` (non-pending rows are skipped there) and the whole
frame is written back. -/
def updatePendingSignals (fetch : String → String → List Candle) (now : ℚ)
    (ledger : List SignalRow) : List SignalRow :=
  ledger.map (updateRow fetch now)

/-- Rounding to two decimal places, as Python's `round(x, 2)` on the exact
rational values used in this development (every concrete value rounded in a
theorem below is tie-free, so the half-even / half-up convention difference of
Python floats cannot matter). -/
def round2 (q : ℚ) : ℚ := (round (100 * q) : ℚ) / 100

/-- Number of rows of the ledger with the given status. -/
def countStatus (s : Status) (rows : List SignalRow) : ℕ :=
  (rows.filter (fun r => r.status = s)).length

/-- Accuracy summary of `src/nifty_banknifty_signals.py` lines 424-436
(`compute_overall_accuracy_summary`): returns
`(accuracy_pct, total, wins, losses, pending)` where `total` counts every row
of the ledger (PENDING included) and `accuracy = round(wins/total*100, 2)`.
The `none` case models the signal-log file not existing. -/
def computeOverallAccuracySummary (file : Option (List SignalRow)) :
    ℚ × ℕ × ℕ × ℕ × ℕ :=
  match file with
  | none => (0, 0, 0, 0, 0)
  | some rows =>
      let total := rows.length
      if total = 0 then (0, 0, 0, 0, 0)
      else
        let wins := countStatus Status.TGT rows
        let losses := countStatus Status.SL rows
        let pending := countStatus Status.PENDING rows
        (round2 ((wins : ℚ) / (total : ℚ) * 100), total, wins, losses, pending)

/-- Accuracy summary of `src/nifty50_signals_final.py` lines 175-184
(`compute_accuracy`).  Python returns a tuple whose arity depends on the
branch taken — `return 0.0, 0, 0, 0` (four components) when the CSV file does
not exist, and `return accuracy, total, achieved, failed, pending` (five
components) otherwise — so the tuple is modelled as a list of rationals whose
length is the tuple arity. -/
def computeAccuracy (file : Option (List SignalRow)) : List ℚ :=
  match file with
  | none => [0, 0, 0, 0]
  | some rows =>
      let total := rows.length
      let achieved := countStatus Status.TGT rows
      let failed := countStatus Status.SL rows
      let pending := total - achieved - failed
      let accuracy :=
        round2 (if 0 < total then (achieved : ℚ) / (total : ℚ) * 100 else 0)
      [accuracy, (total : ℚ), (achieved : ℚ), (failed : ℚ), (pending : ℚ)]

/-- Win rate over resolved rows only, written from the spec's words
(§4.5 / §6): WON-count divided by total-resolved-count (WON + LOST, PENDING
excluded) times 100, rounded to two decimal places.  Kept separate from the
source-derived `computeOverallAccuracySummary` so the two can be compared. -/
def specResolvedWinRate (rows : List SignalRow) : ℚ :=
  let won := countStatus Status.TGT rows
  let lost := countStatus Status.SL rows
  round2 ((won : ℚ) / ((won : ℚ) + (lost : ℚ)) * 100)

/-- Ledger append of `src/nifty50_signals_final.py` lines 121-128
(`record_signal`): the CSV is read into a frame, the new row is concatenated
at the end (`pd.concat([df, pd.DataFrame([row])])`), and the whole frame is
written back — as a state transition on the persisted ledger this is exactly
list append. -/
def recordSignal (ledger : List SignalRow) (row : SignalRow) : List SignalRow :=
  ledger ++ [row]

/-- Row schema of `signal_log_v8.csv` as appended by
`src/nifty_banknifty_signals_rsi_v8.py` (`append_signal_log`): datetime,
stock, trade_type, signal, entry, target, stop_loss, status, result. -/
structure RsiLogEntry where
  datetime : ℚ
  stock : String
  tradeType : String
  signal : String
  entry : ℚ
  target : ℚ
  stopLoss : ℚ
  status : String
  result : String
deriving Repr, DecidableEq

/-- Ledger append of `src/nifty_banknifty_signals_rsi_v8.py` lines 84-91
(`append_signal_log`): read, concatenate the entry at the end, write back. -/
def appendSignalLog (ledger : List RsiLogEntry) (e : RsiLogEntry) :
    List RsiLogEntry :=
  ledger ++ [e]

/-- Row schema written by `main` of `src/nifty_rsi_signals_v8.py`
(columns `stock`, `signal`, `time`). -/
structure V8LogRow where
  stock : String
  signal : String
  time : ℚ
deriving Repr, DecidableEq

/-- Persistence step of `main` in `src/nifty_rsi_signals_v8.py` lines 77-92:
a fresh empty frame is created (line 77), only the current cycle's signals are
concatenated to it, and `df.to_csv("signal_log_v8.csv")` (line 92) replaces
the file — the prior persisted ledger does not flow into the written state at
all. -/
def writeSignalLogV8 (_prior cycleRows : List V8LogRow) : List V8LogRow :=
  cycleRows

/-! ### Indicator engine

Each indicator is embedded as a function of the candle (or value) prefix up to
the evaluated dataframe position: the pandas column value at position `i` is
the corresponding `...Last` function applied to the first `i + 1` rows, which
is exactly the causal reading of the recurrences involved.  `session_vwap` and
the RSI of `get_signal` are embedded from the source; the `ta`-library
indicators are external to the repository and are modelled from the spec
(§4.1): window-based, recurrence-seeded at the first full window, undefined
during warm-up. -/

/-- Simple moving average of the last `w` values (pandas `rolling(w).mean()`
read at the final position of the series). -/
def smaLast (w : ℕ) (xs : List ℚ) : Option ℚ :=
  if w = 0 ∨ xs.length < w then none
  else some ((xs.drop (xs.length - w)).sum / (w : ℚ))

/-- One step of the exponential-moving-average recurrence with smoothing
factor `a`. -/
def emaStep (a : ℚ) (acc x : ℚ) : ℚ := acc + a * (x - acc)

/-- Modelled from the spec: `ta.trend.EMAIndicator` is an external library;
§4.1 specifies a recurrence-based moving average seeded at the first full
window and undefined before it.  Smoothing factor `2/(w+1)`, seeded with the
simple mean of the first `w` values, read at the final position. -/
def emaLast (w : ℕ) (xs : List ℚ) : Option ℚ :=
  if w = 0 ∨ xs.length < w then none
  else
    some ((xs.drop w).foldl (emaStep (2 / ((w : ℚ) + 1)))
      ((xs.take w).sum / (w : ℚ)))

/-- Consecutive closing deltas (pandas `diff()` with the leading NaN
dropped): one entry per position after the first. -/
def diffs (xs : List ℚ) : List ℚ :=
  List.zipWith (fun a b => b - a) xs xs.tail

/-- Modelled from the spec: `ta.momentum.RSIIndicator` is an external library;
§4.1 specifies the oscillator from the rolling mean of positive versus
negative closing deltas over the window, with the division-by-zero case
mapped to the boundary value 100; a window with no movement at all is
undefined.  `100 - 100/(1+g/l) = 100*g/(g+l)` for `l > 0`. -/
def rsiLast (w : ℕ) (xs : List ℚ) : Option ℚ :=
  if w = 0 ∨ xs.length < w + 1 then none
  else
    let ds := diffs xs
    let win := ds.drop (ds.length - w)
    let g := (win.map (fun d => max d 0)).sum / (w : ℚ)
    let l := (win.map (fun d => max (-d) 0)).sum / (w : ℚ)
    if l = 0 then (if 0 < g then some 100 else none)
    else some (100 * g / (g + l))

/-- One step of Wilder's smoothing recurrence over a window of size `w`. -/
def wilderStep (w : ℕ) (acc x : ℚ) : ℚ := (acc * ((w : ℚ) - 1) + x) / (w : ℚ)

/-- Wilder-smoothed value of a series read at its final position: seeded with
the simple mean of the first `w` values, then smoothed across the rest. -/
def wilderLast (w : ℕ) (xs : List ℚ) : Option ℚ :=
  if w = 0 ∨ xs.length < w then none
  else
    some ((xs.drop w).foldl (wilderStep w) ((xs.take w).sum / (w : ℚ)))

/-- Pairwise series over consecutive candles, with a dedicated value for the
first bar (which has no predecessor). -/
def pairwise0 (first : Candle → ℚ) (f : Candle → Candle → ℚ)
    (cs : List Candle) : List ℚ :=
  match cs with
  | [] => []
  | c :: _ => first c :: List.zipWith f cs cs.tail

/-- True range of a bar given its predecessor. -/
def trPair (c1 c2 : Candle) : ℚ :=
  max (c2.high - c2.low) (max |c2.high - c1.close| |c2.low - c1.close|)

/-- True-range series of a candle sequence (first bar: plain high-low range). -/
def trList (cs : List Candle) : List ℚ :=
  pairwise0 (fun c => c.high - c.low) trPair cs

/-- Modelled from the spec: `ta.volatility.AverageTrueRange` is an external
library; §4.1 specifies a volatility measure from high-low-close ranges
smoothed over the window with the usual warm-up rule.  Wilder-smoothed true
range, read at the final position. -/
def atrLast (w : ℕ) (cs : List Candle) : Option ℚ :=
  wilderLast w (trList cs)

/-- Positive directional movement of a bar given its predecessor. -/
def dmPlus (c1 c2 : Candle) : ℚ :=
  let up := c2.high - c1.high
  let dn := c1.low - c2.low
  if dn < up ∧ 0 < up then up else 0

/-- Negative directional movement of a bar given its predecessor. -/
def dmMinus (c1 c2 : Candle) : ℚ :=
  let up := c2.high - c1.high
  let dn := c1.low - c2.low
  if up < dn ∧ 0 < dn then dn else 0

/-- Directional index DX from Wilder-smoothed positive and negative
directional movement `p`, `m` normalised by smoothed true range `t`:
`100·|+DI − −DI| / (+DI + −DI)`, degenerate denominators mapping to 0. -/
def dxOf (p m t : ℚ) : ℚ :=
  if t = 0 then 0
  else
    let dip := 100 * p / t
    let dim := 100 * m / t
    if dip + dim = 0 then 0 else 100 * |dip - dim| / (dip + dim)

/-- Running Wilder smoothing of a series: entry `j` is the smoothed reading
at position `w - 1 + j`, so the first entry is the seed (the simple mean of
the first `w` values) and `wilderLast` reads the final entry. -/
def wilderSeries (w : ℕ) (xs : List ℚ) : List ℚ :=
  if w = 0 ∨ xs.length < w then []
  else List.scanl (wilderStep w) ((xs.take w).sum / (w : ℚ)) (xs.drop w)

/-- DX series of a candle sequence, position-aligned across the three
smoothed components. -/
def dxSeries (w : ℕ) (cs : List Candle) : List ℚ :=
  List.zipWith (fun pm t => dxOf pm.1 pm.2 t)
    (List.zipWith Prod.mk (wilderSeries w (pairwise0 (fun _ => 0) dmPlus cs))
      (wilderSeries w (pairwise0 (fun _ => 0) dmMinus cs)))
    (wilderSeries w (trList cs))

/-- Modelled from the spec: `ta.trend.ADXIndicator` is an external library;
§4.1 specifies a trend-strength measure derived from high-low-close ranges
smoothed over the window.  Wilder's ADX: the smoothing of the DX series,
read at the final position. -/
def adxLast (w : ℕ) (cs : List Candle) : Option ℚ :=
  wilderLast w (dxSeries w cs)

/-- Session VWAP of `session_vwap` in `src/nifty50_signals_final.py`
lines 103-114, read at the final position: cumulative typical-price times
volume over cumulative volume, undefined (NaN) while the cumulative volume is
zero. -/
def vwapLast (cs : List Candle) : Option ℚ :=
  let cv := (cs.map Candle.volume).sum
  if cv = 0 then none
  else some ((cs.map (fun c => (c.high + c.low + c.close) / 3 * c.volume)).sum / cv)

/-- Comparison of two possibly-missing column values with pandas NaN
semantics: any comparison against a missing value is false. -/
def oLT (a b : Option ℚ) : Bool :=
  match a, b with
  | some x, some y => decide (x < y)
  | _, _ => false

/-- Non-strict counterpart of `oLT`, same NaN semantics. -/
def oLE (a b : Option ℚ) : Bool :=
  match a, b with
  | some x, some y => decide (x ≤ y)
  | _, _ => false

/-! ### Signal detectors -/

/-- Prefix of a candle frame with the in-progress row dropped: its last
element is the last fully closed candle `iloc[-2]`. -/
def latestOf (cs : List Candle) : List Candle := cs.take (cs.length - 1)

/-- Prefix of a candle frame ending at `iloc[-3]`, the candle preceding the
last fully closed one. -/
def prevOf (cs : List Candle) : List Candle := cs.take (cs.length - 2)

/-- Entry price of `intraday_check`: the close of the last fully closed
candle (`float(latest["Close"])` at `iloc[-2]`). -/
def intradayPrice (cs : List Candle) : ℚ :=
  ((latestOf cs).map Candle.close).getD (((latestOf cs).map Candle.close).length - 1) 0

/-- BUY condition of `intraday_check` (`src/nifty50_signals_final.py`
lines 225-226), evaluated from the candle prefixes ending at `iloc[-2]`
(`latest`) and `iloc[-3]` (`prev`): EMA20 was at-or-below EMA50 and is now
strictly above, price above VWAP, ADX at least 25 (a missing ADX is coerced
to 0), volume above 1.2 times its 20-bar mean (a missing mean is coerced to
0) and RSI strictly below 70; comparisons against other missing values are
false. -/
def buyCondAux (latest prev : List Candle) : Bool :=
  let lc := latest.map Candle.close
  let pc := prev.map Candle.close
  let vols := latest.map Candle.volume
  let price := lc.getD (lc.length - 1) 0
  oLE (emaLast 20 pc) (emaLast 50 pc) &&
  oLT (emaLast 50 lc) (emaLast 20 lc) &&
  (match vwapLast latest with | some v => decide (v < price) | none => false) &&
  decide ((25 : ℚ) ≤ (adxLast 14 latest).getD 0) &&
  decide ((6 / 5 : ℚ) * (smaLast 20 vols).getD 0 < vols.getD (vols.length - 1) 0) &&
  (match rsiLast 14 lc with | some r => decide (r < 70) | none => false)

/-- SELL condition of `intraday_check` (`src/nifty50_signals_final.py`
lines 228-229), mirroring `buyCondAux` with RSI strictly above 30. -/
def sellCondAux (latest prev : List Candle) : Bool :=
  let lc := latest.map Candle.close
  let pc := prev.map Candle.close
  let vols := latest.map Candle.volume
  let price := lc.getD (lc.length - 1) 0
  oLE (emaLast 50 pc) (emaLast 20 pc) &&
  oLT (emaLast 20 lc) (emaLast 50 lc) &&
  (match vwapLast latest with | some v => decide (price < v) | none => false) &&
  decide ((25 : ℚ) ≤ (adxLast 14 latest).getD 0) &&
  decide ((6 / 5 : ℚ) * (smaLast 20 vols).getD 0 < vols.getD (vols.length - 1) 0) &&
  (match rsiLast 14 lc with | some r => decide (30 < r) | none => false)

/-- Intraday detector of `src/nifty50_signals_final.py` lines 191-239
(`intraday_check`): needs at least 30 candles (the later `len(df) < 4` guard
of the source is kept for faithfulness), evaluates every indicator at the
last fully closed candle `iloc[-2]` and the EMA crossover also at `iloc[-3]`,
and sizes the stop and target `1.2*ATR` and `2.5*ATR` away from the entry,
requiring a positive ATR; the BUY branch is tested before the SELL branch as
in the source. -/
def intradayCheck (cs : List Candle) : Option (Direction × ℚ × ℚ × ℚ) :=
  if cs.length < 30 then none
  else if cs.length < 4 then none
  else
    match atrLast 14 (latestOf cs) with
    | some a =>
        if buyCondAux (latestOf cs) (prevOf cs) && decide (0 < a) then
          some (Direction.BUY, intradayPrice cs, intradayPrice cs - 6 / 5 * a,
                intradayPrice cs + 5 / 2 * a)
        else if sellCondAux (latestOf cs) (prevOf cs) && decide (0 < a) then
          some (Direction.SELL, intradayPrice cs, intradayPrice cs + 6 / 5 * a,
                intradayPrice cs - 5 / 2 * a)
        else none
    | none => none

/-- RSI crossover detector of `src/nifty_banknifty_signals_rsi_v8.py`
lines 107-134 (`get_rsi_signal`): needs at least two rows, compares the RSI at
`iloc[-2]` and `iloc[-1]` (the currently forming candle) against the
thresholds 45 (BUY) and 55 (SELL); a BUY fires on `prev <= 45 and last > 45`
with target `round(entry*1.01, 2)` and stop `round(entry*0.99, 2)`, SELL
mirrored.  The returned tuple is `(signal, entry_price, target, stop_loss)`
in source order. -/
def getRsiSignal (closes : List ℚ) : Option (Direction × ℚ × ℚ × ℚ) :=
  if closes.length < 2 then none
  else
    let n := closes.length
    let prevRsi := rsiLast 14 (closes.take (n - 1))
    let lastRsi := rsiLast 14 closes
    let entry := closes.getD (n - 1) 0
    if oLE prevRsi (some 45) && oLT (some 45) lastRsi then
      some (Direction.BUY, entry, round2 (entry * (101 / 100)),
            round2 (entry * (99 / 100)))
    else if oLE (some 55) prevRsi && oLT lastRsi (some 55) then
      some (Direction.SELL, entry, round2 (entry * (99 / 100)),
            round2 (entry * (101 / 100)))
    else none

/-- Hand-rolled RSI of `get_signal` in `src/rsi_signal_bot_v8.py` lines 71-78,
read at the final position: `delta = close.diff()` (its leading NaN is coerced
to 0 by `np.where`), 14-period rolling means of gains and losses, then
`rsi = 100 - 100/(1 + avg_gain/avg_loss)`.  A zero loss mean propagates as in
IEEE float arithmetic: with a positive gain mean `rs` is infinite and the RSI
is exactly 100; with both means zero the RSI is NaN, modelled as `none`. -/
def handRsiLast (xs : List ℚ) : Option ℚ :=
  if xs.length < 14 then none
  else
    let gains := 0 :: (diffs xs).map (fun d => max d 0)
    let losses := 0 :: (diffs xs).map (fun d => max (-d) 0)
    let g := (gains.drop (xs.length - 14)).sum / 14
    let l := (losses.drop (xs.length - 14)).sum / 14
    if l = 0 then (if 0 < g then some 100 else none)
    else some (100 - 100 / (1 + g / l))

/-- Threshold detector of `src/rsi_signal_bot_v8.py` lines 65-91
(`get_signal`): needs at least 20 rows, reads only the hand-rolled RSI and the
close at `iloc[-1]` (the currently forming candle) and fires BUY whenever the
latest RSI exceeds 60 and SELL whenever it is below 40 — no comparison with
the preceding candle at all.  Returns `(signal, price, round(rsi, 2))`. -/
def getSignalBot (closes : List ℚ) : Option (Direction × ℚ × ℚ) :=
  if closes.length < 20 then none
  else
    match handRsiLast closes with
    | none => none
    | some r =>
        let price := closes.getD (closes.length - 1) 0
        if 60 < r then some (Direction.BUY, price, round2 r)
        else if r < 40 then some (Direction.SELL, price, round2 r)
        else none

/-! ### Helper lemmas -/

lemma round2_le (q : ℚ) : round2 q ≤ q + 1 / 200 := by
  have h := abs_sub_round (100 * q)
  rw [abs_le] at h
  have h100 : (0 : ℚ) < 100 := by norm_num
  rw [round2, div_le_iff₀ h100]
  linarith [h.1]

lemma le_round2 (q : ℚ) : q - 1 / 200 ≤ round2 q := by
  have h := abs_sub_round (100 * q)
  rw [abs_le] at h
  have h100 : (0 : ℚ) < 100 := by norm_num
  rw [round2, le_div_iff₀ h100]
  linarith [h.2]

lemma updateRow_of_not_pending (fetch : String → String → List Candle) (now : ℚ)
    (row : SignalRow) (h : row.status ≠ Status.PENDING) :
    updateRow fetch now row = row := by
  simp [updateRow, h]

lemma updateRow_idem (fetch : String → String → List Candle) (now1 now2 : ℚ)
    (row : SignalRow) :
    updateRow fetch now2 (updateRow fetch now1 row) = updateRow fetch now1 row := by
  by_cases hp : row.status = Status.PENDING
  · rcases hscan : scanForHit row.direction row.sl row.tgt
        (fetch row.symbol row.strategy) with _ | h
    · simp [updateRow, hp, hscan]
    · cases h <;> simp [updateRow, hp, hscan]
  · simp [updateRow, hp]

lemma updateRow_timestamp (fetch : String → String → List Candle) (now t : ℚ)
    (r : SignalRow) :
    updateRow fetch now { r with timestamp := t } =
      { updateRow fetch now r with timestamp := t } := by
  by_cases hp : r.status = Status.PENDING
  · rcases hscan : scanForHit r.direction r.sl r.tgt
        (fetch r.symbol r.strategy) with _ | h
    · simp [updateRow, hp, hscan]
    · cases h <;> simp [updateRow, hp, hscan]
  · simp [updateRow, hp]

lemma candleHit_openTime (d : Direction) (sl tgt : ℚ) (c : Candle) (x : ℚ) :
    candleHit d sl tgt { c with openTime := x } = candleHit d sl tgt c := by
  cases d <;> rfl

lemma scanForHit_openTime (d : Direction) (sl tgt : ℚ) (g : Candle → ℚ) :
    ∀ cs : List Candle,
      scanForHit d sl tgt (cs.map (fun c => { c with openTime := g c })) =
        scanForHit d sl tgt cs
  | [] => rfl
  | c :: rest => by
      rw [List.map_cons]
      show scanForHit d sl tgt ({ c with openTime := g c } :: _) = _
      rw [scanForHit, scanForHit, candleHit_openTime,
        scanForHit_openTime d sl tgt g rest]

lemma countStatus_cons (s : Status) (r : SignalRow) (rs : List SignalRow) :
    countStatus s (r :: rs) =
      (if r.status = s then 1 else 0) + countStatus s rs := by
  simp only [countStatus, List.filter_cons]
  by_cases h : r.status = s
  · simp [h, Nat.add_comm]
  · simp [h]

lemma countStatus_partition (rows : List SignalRow) :
    countStatus Status.TGT rows + countStatus Status.SL rows +
      countStatus Status.PENDING rows = rows.length := by
  induction rows with
  | nil => rfl
  | cons r rs ih =>
      rw [countStatus_cons, countStatus_cons, countStatus_cons, List.length_cons]
      cases h : r.status <;> simp [h] <;> omega

lemma latestOf_append (xs : List Candle) (a : Candle) : latestOf (xs ++ [a]) = xs := by
  simp only [latestOf, List.length_append, List.length_singleton,
    Nat.add_sub_cancel]
  exact List.take_left xs [a]

lemma prevOf_append (xs : List Candle) (a : Candle) :
    prevOf (xs ++ [a]) = xs.take (xs.length - 1) := by
  simp only [prevOf, List.length_append, List.length_singleton]
  rw [show xs.length + 1 - 2 = xs.length - 1 by omega]
  exact List.take_append_of_le_length (Nat.sub_le _ _)

/-! ### Concrete data used by the verification -/

/-- Gap-through bar for a BUY signal with stop 98 and target 106: its range
touches both bounds. -/
def gapCandleBuy : Candle := ⟨0, 100, 107, 97, 100, 1⟩

/-- Gap-through bar for a SELL signal with stop 102 and target 94: its range
touches both bounds. -/
def gapCandleSell : Candle := ⟨0, 100, 107, 93, 100, 1⟩

/-- Candle whose open time (5) lies before the signal creation time (10) of
`c2Row` and whose high touches the target. -/
def c2Candle : Candle := ⟨5, 100, 107, 99, 104, 1⟩

/-- Pending BUY ledger row created at time 10 with stop 98 and target 106. -/
def c2Row : SignalRow :=
  ⟨10, "RELIANCE.NS", "INTRADAY", Direction.BUY, 100, 98, 106,
   Status.PENDING, none, none⟩

/-- First forward candle of the end-to-end spec example: high 101, low 99. -/
def c3Candle1 : Candle := ⟨1, 100, 101, 99, 100, 1⟩

/-- Second forward candle of the end-to-end spec example: high 103,
low 98.5. -/
def c3Candle2 : Candle := ⟨2, 100, 103, 197 / 2, 100, 1⟩

/-- Third forward candle of the end-to-end spec example: high 107, low 104. -/
def c3Candle3 : Candle := ⟨3, 100, 107, 104, 100, 1⟩

/-- A previously persisted cycle-log row. -/
def v8RowA : V8LogRow := ⟨"TCS.NS", "BUY", 1⟩

/-- A cycle-log row recorded by a later cycle. -/
def v8RowB : V8LogRow := ⟨"INFY.NS", "SELL", 2⟩

/-- Close series with a tiny final price (0.1): fourteen one-tick declines
followed by a recovery bar, so the RSI crosses up through 45 on the final
candle. -/
def tinyCloses : List ℚ :=
  [29/280, 28/280, 27/280, 26/280, 25/280, 24/280, 23/280, 22/280, 21/280,
   20/280, 19/280, 18/280, 17/280, 16/280, 15/280, 28/280]

/-- The same shape as `tinyCloses` at ordinary prices: declines from 29 to 15
then a recovery close at 28. -/
def bigCloses : List ℚ :=
  [29, 28, 27, 26, 25, 24, 23, 22, 21, 20, 19, 18, 17, 16, 15, 28]

/-- Rising closes from 15 to 29 followed by a drop to 16, so the RSI crosses
down through 55 on the final candle. -/
def sellCloses : List ℚ :=
  [15, 16, 17, 18, 19, 20, 21, 22, 23, 24, 25, 26, 27, 28, 29, 16]

/-- `bigCloses` with only the final close changed (15 instead of 28): the RSI
no longer crosses on the final candle. -/
def closesB : List ℚ :=
  [29, 28, 27, 26, 25, 24, 23, 22, 21, 20, 19, 18, 17, 16, 15, 15]

/-- Steadily rising closes with a single one-tick dip at position 13: the
hand-rolled RSI is far above 60 on both of the last two candles. -/
def contCloses : List ℚ :=
  [100, 101, 102, 103, 104, 105, 106, 107, 108, 109, 110, 111, 112, 111,
   112, 113, 114, 115, 116, 117, 118]

/-- A resolved WON ledger row. -/
def wonRow : SignalRow :=
  ⟨1, "TCS.NS", "INTRADAY", Direction.BUY, 100, 98, 106,
   Status.TGT, some 2, some TradeResult.WIN⟩

/-- A resolved LOST ledger row. -/
def lostRow : SignalRow :=
  ⟨1, "INFY.NS", "INTRADAY", Direction.BUY, 50, 49, 53,
   Status.SL, some 2, some TradeResult.LOSS⟩

/-- A pending ledger row. -/
def pendingRow : SignalRow :=
  ⟨3, "SBIN.NS", "SWING", Direction.SELL, 200, 205, 190,
   Status.PENDING, none, none⟩

/-- Candle frame on which `intraday_check` emits a BUY: a flat market whose
highs and lows drift up one tick per bar (so the directional index stays at
its ceiling), a few one-point dips near the end that pull EMA20 under EMA50,
and a final closed bar that closes at 104.3 on ten times the usual volume. -/
def wCandles : List Candle := [
  ⟨0, 100, 105, 95, 100, 1⟩,
  ⟨1, 100, 10501/100, 9501/100, 100, 1⟩,
  ⟨2, 100, 5251/50, 4751/50, 100, 1⟩,
  ⟨3, 100, 10503/100, 9503/100, 100, 1⟩,
  ⟨4, 100, 2626/25, 2376/25, 100, 1⟩,
  ⟨5, 100, 2101/20, 1901/20, 100, 1⟩,
  ⟨6, 100, 5253/50, 4753/50, 100, 1⟩,
  ⟨7, 100, 10507/100, 9507/100, 100, 1⟩,
  ⟨8, 100, 2627/25, 2377/25, 100, 1⟩,
  ⟨9, 100, 10509/100, 9509/100, 100, 1⟩,
  ⟨10, 100, 1051/10, 951/10, 100, 1⟩,
  ⟨11, 100, 10511/100, 9511/100, 100, 1⟩,
  ⟨12, 100, 2628/25, 2378/25, 100, 1⟩,
  ⟨13, 100, 10513/100, 9513/100, 100, 1⟩,
  ⟨14, 100, 5257/50, 4757/50, 100, 1⟩,
  ⟨15, 100, 2103/20, 1903/20, 100, 1⟩,
  ⟨16, 100, 2629/25, 2379/25, 100, 1⟩,
  ⟨17, 100, 10517/100, 9517/100, 100, 1⟩,
  ⟨18, 100, 5259/50, 4759/50, 100, 1⟩,
  ⟨19, 100, 10519/100, 9519/100, 100, 1⟩,
  ⟨20, 100, 526/5, 476/5, 100, 1⟩,
  ⟨21, 100, 10521/100, 9521/100, 100, 1⟩,
  ⟨22, 100, 5261/50, 4761/50, 100, 1⟩,
  ⟨23, 100, 10523/100, 9523/100, 100, 1⟩,
  ⟨24, 100, 2631/25, 2381/25, 100, 1⟩,
  ⟨25, 100, 421/4, 381/4, 100, 1⟩,
  ⟨26, 100, 5263/50, 4763/50, 100, 1⟩,
  ⟨27, 100, 10527/100, 9527/100, 100, 1⟩,
  ⟨28, 100, 2632/25, 2382/25, 100, 1⟩,
  ⟨29, 100, 10529/100, 9529/100, 100, 1⟩,
  ⟨30, 100, 1053/10, 953/10, 100, 1⟩,
  ⟨31, 100, 10531/100, 9531/100, 100, 1⟩,
  ⟨32, 100, 2633/25, 2383/25, 100, 1⟩,
  ⟨33, 100, 10533/100, 9533/100, 100, 1⟩,
  ⟨34, 100, 5267/50, 4767/50, 100, 1⟩,
  ⟨35, 100, 2107/20, 1907/20, 100, 1⟩,
  ⟨36, 100, 2634/25, 2384/25, 100, 1⟩,
  ⟨37, 100, 10537/100, 9537/100, 100, 1⟩,
  ⟨38, 100, 5269/50, 4769/50, 100, 1⟩,
  ⟨39, 100, 10539/100, 9539/100, 100, 1⟩,
  ⟨40, 100, 527/5, 477/5, 100, 1⟩,
  ⟨41, 100, 10541/100, 9541/100, 100, 1⟩,
  ⟨42, 99, 5271/50, 4771/50, 99, 1⟩,
  ⟨43, 100, 10543/100, 9543/100, 100, 1⟩,
  ⟨44, 99, 2636/25, 2386/25, 99, 1⟩,
  ⟨45, 100, 2109/20, 1909/20, 100, 1⟩,
  ⟨46, 99, 5273/50, 4773/50, 99, 1⟩,
  ⟨47, 100, 10547/100, 9547/100, 100, 1⟩,
  ⟨48, 99, 2637/25, 2387/25, 99, 1⟩,
  ⟨49, 99, 10549/100, 9549/100, 99, 1⟩,
  ⟨50, 1043/10, 211/2, 191/2, 1043/10, 10⟩,
  ⟨51, 100, 10551/100, 9551/100, 100, 1⟩
]

/-! ### Claims -/

/-- Claim C1, counterexample: a single BUY gap-through candle (high 107 above
the target 106, low 97 below the stop 98) is resolved `TGT` (WON) by the
forward scan, not `SL` (LOST), because the source tests `high >= tgt` before
`low <= sl`; the SELL mirror behaves the same way. -/
theorem C1_gap_through_resolves_won :
    (106 : ℚ) ≤ gapCandleBuy.high ∧ gapCandleBuy.low ≤ (98 : ℚ) ∧
    scanForHit Direction.BUY 98 106 [gapCandleBuy] = some Hit.TGT ∧
    scanForHit Direction.BUY 98 106 [gapCandleBuy] ≠ some Hit.SL ∧
    gapCandleSell.low ≤ (94 : ℚ) ∧ (102 : ℚ) ≤ gapCandleSell.high ∧
    scanForHit Direction.SELL 102 94 [gapCandleSell] = some Hit.TGT ∧
    scanForHit Direction.SELL 102 94 [gapCandleSell] ≠ some Hit.SL := by
  refine ⟨?_, ?_, ?_, ?_, ?_, ?_, ?_, ?_⟩ <;>
    norm_num [gapCandleBuy, gapCandleSell, scanForHit, candleHit] <;> decide

/-- Claim C1 as amended: on a candle whose range touches both bounds, the
Resolution Engine evaluates the target check first and resolves the signal
WON (`TGT`), never LOST — for BUY as well as for SELL signals. -/
theorem C1_both_touch_resolves_won :
    ∀ (sl tgt : ℚ) (c : Candle) (rest : List Candle),
      (tgt ≤ c.high → c.low ≤ sl →
        scanForHit Direction.BUY sl tgt (c :: rest) = some Hit.TGT) ∧
      (c.low ≤ tgt → sl ≤ c.high →
        scanForHit Direction.SELL sl tgt (c :: rest) = some Hit.TGT) := by
  intro sl tgt c rest
  constructor <;> intro h1 h2 <;> simp [scanForHit, candleHit, h1, h2]

/-- Witness for `C1_both_touch_resolves_won` at the two gap-through bars. -/
theorem C1_both_touch_resolves_won_witness :
    scanForHit Direction.BUY 98 106 [gapCandleBuy] = some Hit.TGT ∧
    scanForHit Direction.SELL 102 94 [gapCandleSell] = some Hit.TGT :=
  ⟨(C1_both_touch_resolves_won 98 106 gapCandleBuy []).1
      (by norm_num [gapCandleBuy]) (by norm_num [gapCandleBuy]),
   (C1_both_touch_resolves_won 102 94 gapCandleSell []).2
      (by norm_num [gapCandleSell]) (by norm_num [gapCandleSell])⟩

/-- Claim C2, counterexample: the forward scan is applied to every fetched
candle with no restriction to candles after `created_at` — a candle whose
open time 5 precedes the signal creation time 10 resolves the signal WON. -/
theorem C2_candle_before_creation_decides :
    c2Candle.openTime ≤ c2Row.timestamp ∧
    updatePendingSignals (fun _ _ => [c2Candle]) 20 [c2Row] =
      [{ c2Row with status := Status.TGT, resolvedAt := some 20,
                    result := some TradeResult.WIN }] := by
  constructor
  · norm_num [c2Candle, c2Row]
  · norm_num [updatePendingSignals, updateRow, c2Row, c2Candle, scanForHit,
      candleHit]

/-- Claim C2 as amended: the Resolution Engine scans all fetched candles
regardless of timestamps — its outcome is invariant both under changing every
signal's `created_at` (`timestamp`) and under changing every candle's open
time, so candles at or before creation time take part in the decision exactly
like later ones. -/
theorem C2_resolution_ignores_timestamps :
    (∀ (fetch : String → String → List Candle) (now : ℚ)
        (ledger : List SignalRow) (t : ℚ),
      updatePendingSignals fetch now
          (ledger.map (fun r => { r with timestamp := t })) =
        (updatePendingSignals fetch now ledger).map
          (fun r => { r with timestamp := t })) ∧
    (∀ (d : Direction) (sl tgt : ℚ) (cs : List Candle) (g : Candle → ℚ),
      scanForHit d sl tgt (cs.map (fun c => { c with openTime := g c })) =
        scanForHit d sl tgt cs) := by
  constructor
  · intro fetch now ledger t
    simp only [updatePendingSignals, List.map_map]
    exact List.map_congr_left (fun r _ => updateRow_timestamp fetch now t r)
  · intro d sl tgt cs g
    exact scanForHit_openTime d sl tgt g cs

/-- Claim C4, counterexample: the cycle-level persistence of
`src/nifty_rsi_signals_v8.py` replaces the signal log with only the current
cycle's rows, so a previously persisted row is gone after recording a new
signal. -/
theorem C4_cycle_write_discards_prior_rows :
    writeSignalLogV8 [v8RowA] [v8RowB] = [v8RowB] ∧
    v8RowA ∉ writeSignalLogV8 [v8RowA] [v8RowB] := by
  constructor
  · rfl
  · simp [writeSignalLogV8, v8RowA, v8RowB]

/-- Claim C4 as amended: the read-concatenate-write appends `record_signal`
and `append_signal_log` are never destructive — every prior row survives
unchanged at its position and exactly one row is added — but the cycle-level
write of `src/nifty_rsi_signals_v8.py` does not preserve prior rows. -/
theorem C4_append_preserves_prior_rows :
    (∀ (l : List SignalRow) (r : SignalRow),
      (recordSignal l r).take l.length = l ∧
      (recordSignal l r).length = l.length + 1) ∧
    (∀ (l : List RsiLogEntry) (e : RsiLogEntry),
      (appendSignalLog l e).take l.length = l ∧
      (appendSignalLog l e).length = l.length + 1) := by
  constructor
  · intro l r
    exact ⟨List.take_left l [r], by simp [recordSignal]⟩
  · intro l e
    exact ⟨List.take_left l [e], by simp [appendSignalLog]⟩

/-- Claim C10: in the missing-file branch `compute_accuracy` returns the
four-component tuple `(0.0, 0, 0, 0)`, not a five-component one, so the
five-way unpacking `accuracy, total, achieved, failed, pending = ...` in
`main` would fail exactly in that state; the existing-file branch does return
five components. -/
theorem C10_missing_file_returns_four_components :
    (computeAccuracy none).length = 4 ∧
    (computeAccuracy none).length ≠ 5 ∧
    (computeAccuracy (some [])).length = 5 ∧
    (computeAccuracy (some [wonRow, lostRow, pendingRow])).length = 5 := by
  refine ⟨rfl, by decide, rfl, ?_⟩
  simp [computeAccuracy]

/-- Claim C3: the forward scan visits the candles in list (chronological)
order and the first candle whose high/low touches a bound decides the
outcome; a scan in which no candle touches either bound reports no hit and
the resolution pass leaves the PENDING row unchanged; on the spec's
end-to-end example (stop 98, target 106, highs 101/103/107, lows
99/98.5/104) the first two candles touch nothing and the scan resolves WON at
the third. -/
theorem C3_first_touch_decides :
    (∀ (d : Direction) (sl tgt : ℚ) (pre rest : List Candle) (c : Candle)
        (h : Hit),
      (∀ x ∈ pre, candleHit d sl tgt x = none) →
      candleHit d sl tgt c = some h →
        scanForHit d sl tgt (pre ++ c :: rest) = some h) ∧
    (∀ (d : Direction) (sl tgt : ℚ) (cs : List Candle),
      (∀ x ∈ cs, candleHit d sl tgt x = none) →
        scanForHit d sl tgt cs = none) ∧
    (∀ (fetch : String → String → List Candle) (now : ℚ) (row : SignalRow),
      scanForHit row.direction row.sl row.tgt (fetch row.symbol row.strategy)
          = none →
        updateRow fetch now row = row) ∧
    (candleHit Direction.BUY 98 106 c3Candle1 = none ∧
     candleHit Direction.BUY 98 106 c3Candle2 = none ∧
     candleHit Direction.BUY 98 106 c3Candle3 = some Hit.TGT ∧
     scanForHit Direction.BUY 98 106 [c3Candle1, c3Candle2, c3Candle3] =
       some Hit.TGT) := by
  refine ⟨?_, ?_, ?_, ?_, ?_, ?_, ?_⟩
  · intro d sl tgt pre
    induction pre with
    | nil =>
        intro rest c h _ hc
        simp [scanForHit, hc]
    | cons p ps ih =>
        intro rest c h hpre hc
        have hp : candleHit d sl tgt p = none := hpre p (by simp)
        rw [List.cons_append, scanForHit, hp]
        exact ih rest c h (fun x hx => hpre x (by simp [hx])) hc
  · intro d sl tgt cs hnone
    induction cs with
    | nil => rfl
    | cons c rest ih =>
        have hc : candleHit d sl tgt c = none := hnone c (by simp)
        rw [scanForHit, hc]
        exact ih (fun x hx => hnone x (by simp [hx]))
  · intro fetch now row h
    unfold updateRow
    split
    · rw [h]
    · rfl
  · norm_num [candleHit, c3Candle1]
  · norm_num [candleHit, c3Candle2]
  · norm_num [candleHit, c3Candle3]
  · norm_num [scanForHit, candleHit, c3Candle1, c3Candle2, c3Candle3]

/-- Witness for `C3_first_touch_decides`: the general parts applied to the
end-to-end example candles and to a pending row whose fetch returns no
candles. -/
theorem C3_first_touch_decides_witness :
    scanForHit Direction.BUY 98 106
        ([c3Candle1, c3Candle2] ++ c3Candle3 :: []) = some Hit.TGT ∧
    scanForHit Direction.BUY 98 106 [c3Candle1, c3Candle2] = none ∧
    updateRow (fun _ _ => []) 7 pendingRow = pendingRow :=
  ⟨C3_first_touch_decides.1 Direction.BUY 98 106 [c3Candle1, c3Candle2] []
      c3Candle3 Hit.TGT
      (by intro x hx
          simp only [List.mem_cons, List.not_mem_nil, or_false] at hx
          rcases hx with h | h
          · subst h; norm_num [candleHit, c3Candle1]
          · subst h; norm_num [candleHit, c3Candle2])
      (by norm_num [candleHit, c3Candle3]),
   C3_first_touch_decides.2.1 Direction.BUY 98 106 [c3Candle1, c3Candle2]
      (by intro x hx
          simp only [List.mem_cons, List.not_mem_nil, or_false] at hx
          rcases hx with h | h
          · subst h; norm_num [candleHit, c3Candle1]
          · subst h; norm_num [candleHit, c3Candle2]),
   C3_first_touch_decides.2.2.1 (fun _ _ => []) 7 pendingRow rfl⟩

/-- Claim C8: the resolution pass never touches a row whose status is already
terminal (its status, `resolved_at` and `result` are left exactly as they
are), and running the pass twice — with the same fetched candles but possibly
a different wall-clock time — produces the same ledger as running it once. -/
theorem C8_resolution_idempotent :
    (∀ (fetch : String → String → List Candle) (now : ℚ) (row : SignalRow),
      row.status ≠ Status.PENDING → updateRow fetch now row = row) ∧
    (∀ (fetch : String → String → List Candle) (now1 now2 : ℚ)
        (ledger : List SignalRow),
      updatePendingSignals fetch now2 (updatePendingSignals fetch now1 ledger)
        = updatePendingSignals fetch now1 ledger) := by
  constructor
  · exact updateRow_of_not_pending
  · intro fetch now1 now2 ledger
    simp only [updatePendingSignals, List.map_map]
    exact List.map_congr_left (fun r _ => updateRow_idem fetch now1 now2 r)

/-- Witness for `C8_resolution_idempotent`: a resolved WON row is untouched,
and a pass over a mixed ledger is idempotent. -/
theorem C8_resolution_idempotent_witness :
    updateRow (fun _ _ => [c3Candle3]) 9 wonRow = wonRow ∧
    updatePendingSignals (fun _ _ => [c3Candle3]) 9
        (updatePendingSignals (fun _ _ => [c3Candle3]) 8
          [wonRow, lostRow, pendingRow]) =
      updatePendingSignals (fun _ _ => [c3Candle3]) 8
        [wonRow, lostRow, pendingRow] :=
  ⟨C8_resolution_idempotent.1 (fun _ _ => [c3Candle3]) 9 wonRow
      (by simp [wonRow]),
   C8_resolution_idempotent.2 (fun _ _ => [c3Candle3]) 8 9
      [wonRow, lostRow, pendingRow]⟩

/-- Claim C6, counterexample: the threshold rule of `get_signal` in
`src/rsi_signal_bot_v8.py` fires BUY on `contCloses` although the entry
condition (RSI above 60) was already true on the preceding candle — a
continuation, not a cross. -/
theorem C6_threshold_rule_fires_on_continuation :
    handRsiLast (contCloses.take (contCloses.length - 1)) = some (650 / 7) ∧
    (60 : ℚ) < 650 / 7 ∧
    getSignalBot contCloses = some (Direction.BUY, 118, 4643 / 50) := by
  refine ⟨?_, by norm_num, ?_⟩
  · norm_num [contCloses, handRsiLast, diffs, List.sum_cons, max_def]
  · norm_num [getSignalBot, contCloses, handRsiLast, diffs, List.sum_cons,
      max_def, round2, round_eq]

/-- Claim C6 as amended: the RSI crossover rule of `get_rsi_signal` fires BUY
only when the previous closed value was at-or-below the threshold 45 and the
latest strictly above it (mirrored for SELL and 55), and hence never fires
when the entry condition already held on the preceding candle; the pure
threshold rule of `get_signal` in `src/rsi_signal_bot_v8.py` has no such
guard and does fire on continuations (see the counterexample). -/
theorem C6_crossover_fires_only_on_cross :
    ∀ (xs : List ℚ) (e t s : ℚ),
      (getRsiSignal xs = some (Direction.BUY, e, t, s) →
        oLE (rsiLast 14 (xs.take (xs.length - 1))) (some 45) = true ∧
        oLT (some 45) (rsiLast 14 xs) = true) ∧
      (getRsiSignal xs = some (Direction.SELL, e, t, s) →
        oLE (some 55) (rsiLast 14 (xs.take (xs.length - 1))) = true ∧
        oLT (rsiLast 14 xs) (some 55) = true) ∧
      (∀ r : ℚ, rsiLast 14 (xs.take (xs.length - 1)) = some r → 45 < r →
        getRsiSignal xs ≠ some (Direction.BUY, e, t, s)) ∧
      (∀ r : ℚ, rsiLast 14 (xs.take (xs.length - 1)) = some r → r < 55 →
        getRsiSignal xs ≠ some (Direction.SELL, e, t, s)) := by
  intro xs e t s
  have hbuy : getRsiSignal xs = some (Direction.BUY, e, t, s) →
      oLE (rsiLast 14 (xs.take (xs.length - 1))) (some 45) = true ∧
      oLT (some 45) (rsiLast 14 xs) = true := by
    intro h
    simp only [getRsiSignal] at h
    split_ifs at h with h1 h2 h3
    · rw [Bool.and_eq_true] at h2
      exact h2
    · simp at h
  have hsell : getRsiSignal xs = some (Direction.SELL, e, t, s) →
      oLE (some 55) (rsiLast 14 (xs.take (xs.length - 1))) = true ∧
      oLT (rsiLast 14 xs) (some 55) = true := by
    intro h
    simp only [getRsiSignal] at h
    split_ifs at h with h1 h2 h3
    · simp at h
    · rw [Bool.and_eq_true] at h3
      exact h3
  refine ⟨hbuy, hsell, ?_, ?_⟩
  · intro r hr h45 heq
    have hle := (hbuy heq).1
    rw [hr] at hle
    simp only [oLE, decide_eq_true_eq] at hle
    linarith
  · intro r hr h55 heq
    have hle := (hsell heq).1
    rw [hr] at hle
    simp only [oLE, decide_eq_true_eq] at hle
    linarith

/-- Witness for `C6_crossover_fires_only_on_cross`: the crossover conditions
extracted from a concrete BUY emission on `bigCloses` and a concrete SELL
emission on `sellCloses`. -/
theorem C6_crossover_fires_only_on_cross_witness :
    (oLE (rsiLast 14 (bigCloses.take (bigCloses.length - 1))) (some 45) = true ∧
     oLT (some 45) (rsiLast 14 bigCloses) = true) ∧
    (oLE (some 55) (rsiLast 14 (sellCloses.take (sellCloses.length - 1))) = true ∧
     oLT (rsiLast 14 sellCloses) (some 55) = true) :=
  ⟨(C6_crossover_fires_only_on_cross bigCloses 28 (707 / 25) (693 / 25)).1
      (by norm_num [getRsiSignal, bigCloses, rsiLast, diffs, List.sum_cons,
        max_def, oLE, oLT, round2, round_eq]),
   (C6_crossover_fires_only_on_cross sellCloses 16 (396 / 25) (404 / 25)).2.1
      (by norm_num [getRsiSignal, sellCloses, rsiLast, diffs, List.sum_cons,
        max_def, oLE, oLT, round2, round_eq])⟩

/-- Claim C7, counterexample: `bigCloses` and `closesB` agree everywhere
except on the final (in-progress) candle, yet `get_rsi_signal` emits a BUY on
the first and nothing on the second — the detector's output depends on the
forming candle, which it reads at `iloc[-1]`. -/
theorem C7_rsi_detector_reads_forming_candle :
    bigCloses.length = closesB.length ∧
    bigCloses.take (bigCloses.length - 1) = closesB.take (closesB.length - 1) ∧
    getRsiSignal bigCloses = some (Direction.BUY, 28, 707 / 25, 693 / 25) ∧
    getRsiSignal closesB = none ∧
    getRsiSignal bigCloses ≠ getRsiSignal closesB := by
  have hA : getRsiSignal bigCloses =
      some (Direction.BUY, 28, 707 / 25, 693 / 25) := by
    norm_num [getRsiSignal, bigCloses, rsiLast, diffs, List.sum_cons, max_def,
      oLE, oLT, round2, round_eq]
  have hB : getRsiSignal closesB = none := by
    norm_num [getRsiSignal, closesB, rsiLast, diffs, List.sum_cons, max_def,
      oLE, oLT]
  refine ⟨by norm_num [bigCloses, closesB], ?_, hA, hB, ?_⟩
  · norm_num [bigCloses, closesB]
  · rw [hA, hB]
    simp

/-- Claim C7 as amended: the nifty50 intraday detector reads only the candles
up to the last fully closed one (`iloc[-2]`/`iloc[-3]`), so its output is
invariant under any change of the final in-progress candle; the RSI v8
detectors do read the forming candle and are not invariant (see the
counterexample). -/
theorem C7_intraday_ignores_forming_candle :
    ∀ (xs : List Candle) (a b : Candle),
      intradayCheck (xs ++ [a]) = intradayCheck (xs ++ [b]) := by
  intro xs a b
  simp only [intradayCheck, intradayPrice, latestOf_append, prevOf_append,
    List.length_append, List.length_singleton]

/-- Claim C9, counterexample: with one WON and one PENDING row the aggregate
snapshot reports 50% (it divides by the total row count, PENDING included)
while the Confidence Estimator's resolved-only formula gives 100%. -/
theorem C9_overall_rate_divides_by_pending :
    (computeOverallAccuracySummary (some [wonRow, pendingRow])).1 = 50 ∧
    specResolvedWinRate [wonRow, pendingRow] = 100 ∧
    (computeOverallAccuracySummary (some [wonRow, pendingRow])).1 ≠
      specResolvedWinRate [wonRow, pendingRow] := by
  have h1 : countStatus Status.TGT [wonRow, pendingRow] = 1 := by decide
  have h2 : countStatus Status.SL [wonRow, pendingRow] = 0 := by decide
  have h3 : countStatus Status.PENDING [wonRow, pendingRow] = 1 := by decide
  refine ⟨?_, ?_, ?_⟩ <;>
    norm_num [computeOverallAccuracySummary, specResolvedWinRate, h1, h2, h3,
      round2, round_eq]

/-- Claim C9 as amended: for a nonempty ledger the aggregate snapshot's
overall rate is WON-count divided by the TOTAL row count (PENDING included)
times 100, rounded to two decimals — not the Confidence Estimator's
resolved-only ratio; the two coincide exactly when no row is PENDING. -/
theorem C9_overall_rate_formula :
    ∀ rows : List SignalRow, rows ≠ [] →
      (computeOverallAccuracySummary (some rows)).1 =
        round2 ((countStatus Status.TGT rows : ℚ) / (rows.length : ℚ) * 100) ∧
      (countStatus Status.PENDING rows = 0 →
        (computeOverallAccuracySummary (some rows)).1 =
          specResolvedWinRate rows) := by
  intro rows hne
  have hlen : rows.length ≠ 0 := by
    simpa [List.length_eq_zero] using hne
  constructor
  · simp [computeOverallAccuracySummary, hlen]
  · intro hpend
    have hpart := countStatus_partition rows
    rw [hpend, Nat.add_zero] at hpart
    have hcast : ((countStatus Status.TGT rows : ℚ) +
        (countStatus Status.SL rows : ℚ)) = (rows.length : ℚ) := by
      exact_mod_cast congrArg (Nat.cast (R := ℚ)) hpart
    simp only [computeOverallAccuracySummary, specResolvedWinRate, hlen,
      if_neg, ite_false]
    rw [hcast]

/-- Witness for `C9_overall_rate_formula` on a fully resolved two-row
ledger. -/
theorem C9_overall_rate_formula_witness :
    (computeOverallAccuracySummary (some [wonRow, lostRow])).1 =
      round2 ((countStatus Status.TGT [wonRow, lostRow] : ℚ) /
        (([wonRow, lostRow] : List SignalRow).length : ℚ) * 100) ∧
    (computeOverallAccuracySummary (some [wonRow, lostRow])).1 =
      specResolvedWinRate [wonRow, lostRow] := by
  have h := C9_overall_rate_formula [wonRow, lostRow] (by simp)
  exact ⟨h.1, h.2 (by decide)⟩

/-- Claim C5, counterexample: on `tinyCloses` the percentage-sized rule of
`get_rsi_signal` emits a BUY whose target and stop both round onto the entry
price 0.1 (`round(0.1*1.01, 2) = round(0.1*0.99, 2) = 0.1`), violating
`stop_price < entry_price < target_price` even though `entry_price > 0`. -/
theorem C5_percent_rule_rounds_target_onto_entry :
    getRsiSignal tinyCloses = some (Direction.BUY, 1 / 10, 1 / 10, 1 / 10) ∧
    ¬ ((1 : ℚ) / 10 < 1 / 10) := by
  refine ⟨?_, by norm_num⟩
  norm_num [getRsiSignal, tinyCloses, rsiLast, diffs, List.sum_cons, max_def,
    oLE, oLT, round2, round_eq]

/-- Claim C5 as amended: every signal emitted by the ATR-sized intraday rule
satisfies the price ordering (`stop < entry < target` for BUY, mirrored for
SELL) — its preconditions already include ATR strictly positive; every signal
emitted by the percentage-sized RSI rule satisfies it provided the entry
price exceeds 1/2, the threshold under which rounding the one-percent
distances to two decimals can collapse them (see the counterexample at entry
0.1). -/
theorem C5_price_ordering :
    (∀ (cs : List Candle) (d : Direction) (e sl tgt : ℚ),
      intradayCheck cs = some (d, e, sl, tgt) →
        (d = Direction.BUY → sl < e ∧ e < tgt) ∧
        (d = Direction.SELL → tgt < e ∧ e < sl)) ∧
    (∀ (xs : List ℚ) (d : Direction) (e t s : ℚ),
      getRsiSignal xs = some (d, e, t, s) → 1 / 2 < e →
        (d = Direction.BUY → s < e ∧ e < t) ∧
        (d = Direction.SELL → t < e ∧ e < s)) := by
  constructor
  · intro cs d e sl tgt h
    simp only [intradayCheck] at h
    split_ifs at h with h1 h2
    split at h
    next a heq =>
      split_ifs at h with hb hs
      · have ha : 0 < a := by
          rw [Bool.and_eq_true, decide_eq_true_eq] at hb
          exact hb.2
        simp only [Option.some.injEq, Prod.mk.injEq] at h
        obtain ⟨hd, he, hsl, htgt⟩ := h
        subst hd he hsl htgt
        refine ⟨fun _ => ⟨by linarith, by linarith⟩, fun hcon => ?_⟩
        cases hcon
      · have ha : 0 < a := by
          rw [Bool.and_eq_true, decide_eq_true_eq] at hs
          exact hs.2
        simp only [Option.some.injEq, Prod.mk.injEq] at h
        obtain ⟨hd, he, hsl, htgt⟩ := h
        subst hd he hsl htgt
        refine ⟨fun hcon => ?_, fun _ => ⟨by linarith, by linarith⟩⟩
        cases hcon
    next => simp at h
  · intro xs d e t s h he
    simp only [getRsiSignal] at h
    split_ifs at h with h1 h2 h3
    · simp only [Option.some.injEq, Prod.mk.injEq] at h
      obtain ⟨hd, hee, ht, hs⟩ := h
      subst hd hee ht hs
      refine ⟨fun _ => ⟨?_, ?_⟩, fun hcon => ?_⟩
      · have hb := round2_le (xs.getD (xs.length - 1) 0 * (99 / 100))
        linarith
      · have hb := le_round2 (xs.getD (xs.length - 1) 0 * (101 / 100))
        linarith
      · cases hcon
    · simp only [Option.some.injEq, Prod.mk.injEq] at h
      obtain ⟨hd, hee, ht, hs⟩ := h
      subst hd hee ht hs
      refine ⟨fun hcon => ?_, fun _ => ⟨?_, ?_⟩⟩
      · cases hcon
      · have hb := round2_le (xs.getD (xs.length - 1) 0 * (99 / 100))
        linarith
      · have hb := le_round2 (xs.getD (xs.length - 1) 0 * (101 / 100))
        linarith

set_option maxRecDepth 10000 in
set_option maxHeartbeats 2000000 in
/-- Witness for `C5_price_ordering`: the intraday part applied to the BUY
emitted on `wCandles` (entry 104.3, stop 92.3, target 129.3) and the
percentage part applied to the BUY emitted on `bigCloses` (entry 28, target
28.28, stop 27.72). -/
theorem C5_price_ordering_witness :
    ((923 / 10 : ℚ) < 1043 / 10 ∧ (1043 / 10 : ℚ) < 1293 / 10) ∧
    ((693 / 25 : ℚ) < 28 ∧ (28 : ℚ) < 707 / 25) := by
  constructor
  · have h := C5_price_ordering.1 wCandles Direction.BUY (1043 / 10) (923 / 10)
      (1293 / 10)
      (by norm_num [intradayCheck, wCandles, latestOf, prevOf, intradayPrice,
        buyCondAux, sellCondAux, atrLast, adxLast, dxSeries, dxOf, wilderSeries,
        emaLast, rsiLast, smaLast, vwapLast, wilderLast, wilderStep, emaStep,
        trList, trPair, pairwise0, dmPlus, dmMinus, diffs, oLE, oLT, max_def,
        abs])
    exact h.1 rfl
  · have h := C5_price_ordering.2 bigCloses Direction.BUY 28 (707 / 25)
      (693 / 25)
      (by norm_num [getRsiSignal, bigCloses, rsiLast, diffs, List.sum_cons,
        max_def, oLE, oLT, round2, round_eq])
      (by norm_num)
    exact h.1 rfl

end TradingBot
